import Mathlib

/-!
Verification of the SENTINEL i-Score risk scoring engine
(`src/models/risk_scoring.py`, class `IScoreEngine`).

The scorers are shallowly embedded: attribute dictionaries become
structures with `Option` fields (an absent key is `none`, and Python's
`dict.get(k, d)` becomes `Option.getD`), numeric values become `ℚ`
(exact rational arithmetic in place of IEEE floats), and the
transcendental normalizations (`np.log1p`, `np.exp`) become `Real.log`
/ `Real.exp`, so the country scorer is `ℝ`-valued while the purely
rational scorers stay computable over `ℚ`.
-/

namespace Sentinel

/-- The engine's weight configuration, `settings.RISK_SCORE_WEIGHTS`
(`src/config/settings.py`): only the three keys consumed by the
country scorer are modelled. -/
def geopolitical_weight : ℚ := 25/100

def economic_weight : ℚ := 20/100

def regulatory_weight : ℚ := 10/100

/-- Country attribute bundle (`country_data` dictionary): each field is
`none` when the key is absent. -/
structure CountryData where
  political_stability_index : Option ℚ
  economic_freedom_index : Option ℚ
  corruption_perception_index : Option ℚ
  gdp_usd : Option ℚ
  population : Option ℚ

/-- `country_data.get('political_stability_index', 50) / 100`. -/
def political_stability (c : CountryData) : ℚ :=
  (c.political_stability_index.getD 50) / 100

/-- `country_data.get('economic_freedom_index', 50) / 100`. -/
def economic_freedom (c : CountryData) : ℚ :=
  (c.economic_freedom_index.getD 50) / 100

/-- `country_data.get('corruption_perception_index', 50) / 100`. -/
def corruption_index (c : CountryData) : ℚ :=
  (c.corruption_perception_index.getD 50) / 100

/-- `country_data.get('gdp_usd', 0) / max(country_data.get('population', 1), 1)`. -/
def gdp_per_capita (c : CountryData) : ℚ :=
  (c.gdp_usd.getD 0) / max (c.population.getD 1) 1

/-- `np.log1p(value) / np.log1p(referenceMax)`: log-scale normalization. -/
noncomputable def log1pNorm (value refMax : ℝ) : ℝ :=
  Real.log (1 + value) / Real.log (1 + refMax)

/-- `np.log1p(gdp_per_capita) / np.log1p(100000)`. -/
noncomputable def gdp_per_capita_normalized (c : CountryData) : ℝ :=
  log1pNorm ((gdp_per_capita c : ℚ) : ℝ) 100000

/-- `(1 - political_stability) * self.weights['geopolitical']`. -/
def political_risk (c : CountryData) : ℚ :=
  (1 - political_stability c) * geopolitical_weight

/-- `(1 - economic_freedom) * self.weights['economic']`. -/
def economic_risk (c : CountryData) : ℚ :=
  (1 - economic_freedom c) * economic_weight

/-- `(1 - corruption_index) * self.weights['regulatory']`. -/
def corruption_risk (c : CountryData) : ℚ :=
  (1 - corruption_index c) * regulatory_weight

/-- `(1 - gdp_per_capita_normalized) * self.weights['economic']`. -/
noncomputable def development_risk (c : CountryData) : ℝ :=
  (1 - gdp_per_capita_normalized c) * (economic_weight : ℝ)

/-- `(political_risk + economic_risk + corruption_risk + development_risk) * 100`. -/
noncomputable def total_risk (c : CountryData) : ℝ :=
  ((political_risk c : ℝ) + (economic_risk c : ℝ) + (corruption_risk c : ℝ)
    + development_risk c) * 100

/-- `100 / (1 + np.exp(-(total_risk - 50) / 10))`. -/
noncomputable def sigmoidCompress (t : ℝ) : ℝ :=
  100 / (1 + Real.exp (-((t - 50) / 10)))

/-- `IScoreEngine.calculate_country_risk_score`: sigmoid of the weighted
total, clamped by `min(100, max(0, risk_score))`. -/
noncomputable def calculate_country_risk_score (c : CountryData) : ℝ :=
  min 100 (max 0 (sigmoidCompress (total_risk c)))

/-- Supplier attribute bundle (`supplier_data` dictionary). -/
structure SupplierData where
  financial_health_score : Option ℚ
  cyber_risk_score : Option ℚ
  operational_risk_score : Option ℚ
  tier : Option ℚ
  annual_revenue : Option ℚ

/-- `supplier_data.get('financial_health_score', 50) / 100`. -/
def financial_health (s : SupplierData) : ℚ :=
  (s.financial_health_score.getD 50) / 100

/-- `supplier_data.get('cyber_risk_score', 50) / 100`. -/
def cyber_risk (s : SupplierData) : ℚ :=
  (s.cyber_risk_score.getD 50) / 100

/-- `supplier_data.get('operational_risk_score', 50) / 100`. -/
def operational_risk (s : SupplierData) : ℚ :=
  (s.operational_risk_score.getD 50) / 100

/-- `np.log1p(revenue) / np.log1p(1000000000)` — computed by the source
and never used afterwards. -/
noncomputable def revenue_normalized (s : SupplierData) : ℝ :=
  log1pNorm ((s.annual_revenue.getD 1000000 : ℚ) : ℝ) 1000000000

/-- `tier_risk = (tier - 1) / 5 * 0.3`. -/
def tier_risk (s : SupplierData) : ℚ :=
  (s.tier.getD 1 - 1) / 5 * (3/10)

/-- `financial_risk = (1 - financial_health) * 0.4`. -/
def financial_risk (s : SupplierData) : ℚ :=
  (1 - financial_health s) * (4/10)

/-- `cyber_risk_score = cyber_risk * 0.3` (the local variable, not the
input key). -/
def cyber_risk_component (s : SupplierData) : ℚ :=
  cyber_risk s * (3/10)

/-- `operational_risk_score = operational_risk * 0.3` (the local
variable, not the input key). -/
def operational_risk_component (s : SupplierData) : ℚ :=
  operational_risk s * (3/10)

/-- The `overall_risk` weighted blend of `calculate_supplier_risk_score`:
note it blends the already-weighted components `financial_risk`,
`cyber_risk_score`, `operational_risk_score`. -/
def supplier_overall_risk (s : SupplierData) (country_risk : ℚ) : ℚ :=
  (financial_risk s * (3/10) +
   cyber_risk_component s * (2/10) +
   operational_risk_component s * (2/10) +
   (country_risk / 100) * (2/10) +
   tier_risk s * (1/10)) * 100

/-- The dictionary returned by `calculate_supplier_risk_score`. -/
structure SupplierBreakdown where
  financial_risk : ℚ
  cyber_risk : ℚ
  operational_risk : ℚ
  country_risk : ℚ
  tier_risk : ℚ
  overall_risk : ℚ
  deriving DecidableEq

/-- `IScoreEngine.calculate_supplier_risk_score`. -/
def calculate_supplier_risk_score (s : SupplierData) (country_risk : ℚ) :
    SupplierBreakdown :=
  { financial_risk := financial_risk s * 100
    cyber_risk := cyber_risk_component s * 100
    operational_risk := operational_risk_component s * 100
    country_risk := country_risk
    tier_risk := tier_risk s * 100
    overall_risk := min 100 (max 0 (supplier_overall_risk s country_risk)) }

/-- The overall-risk formula as the spec states it (§4.3 step 4 and §8):
blending the *raw* fractions with weights 0.3/0.2/0.2/0.2/0.1, to be
compared against `supplier_overall_risk` taken from the source. -/
def supplier_overall_risk_specified (s : SupplierData) (country_risk : ℚ) : ℚ :=
  min 100 (max 0
    (((1 - financial_health s) * (3/10) +
      cyber_risk s * (2/10) +
      operational_risk s * (2/10) +
      (country_risk / 100) * (2/10) +
      tier_risk s * (1/10)) * 100))

/-- Trade route attribute bundle (`route_data` dictionary). -/
structure RouteData where
  distance_km : Option ℚ
  transit_time_days : Option ℚ
  cost_per_ton : Option ℚ
  route_type : Option String
  chokepoint_risk : Option ℚ

/-- `route_data.get('route_type', 'sea')`: an absent key defaults to
the string `'sea'`. -/
def route_type_value (r : RouteData) : String :=
  r.route_type.getD "sea"

/-- `type_multipliers.get(route_type, 1.0)` over the dictionary
`{'sea': 1.2, 'air': 0.8, 'land': 1.0}`. -/
def type_multiplier (rt : String) : ℚ :=
  if rt = "sea" then 12/10
  else if rt = "air" then 8/10
  else if rt = "land" then 1
  else 1

/-- The five weighted terms of `calculate_trade_route_risk_score` before
the type multiplier: `distance_risk + transit_risk + cost_risk +
chokepoint_risk_score + country_risk`. -/
def route_base_sum (r : RouteData) (origin_risk dest_risk : ℚ) : ℚ :=
  min 1 ((r.distance_km.getD 1000) / 20000) * (2/10) +
  min 1 ((r.transit_time_days.getD 10) / 30) * (15/100) +
  min 1 ((r.cost_per_ton.getD 500) / 8000) * (1/10) +
  (r.chokepoint_risk.getD 0) / 100 * (25/100) +
  (origin_risk + dest_risk) / 200 * (3/10)

/-- `IScoreEngine.calculate_trade_route_risk_score`:
`min(100, max(0, total)) ` with `total = base_sum * type_multiplier * 100`. -/
def calculate_trade_route_risk_score (r : RouteData)
    (origin_risk dest_risk : ℚ) : ℚ :=
  min 100 (max 0
    (route_base_sum r origin_risk dest_risk
      * type_multiplier (route_type_value r) * 100))

/-- Already-scored supplier record consumed by the aggregator: only the
two keys it reads. -/
structure SupplierRecord where
  overall_risk_score : Option ℚ
  country_id : Option ℤ
  deriving DecidableEq

/-- Already-scored route record consumed by the aggregator. -/
structure RouteRecord where
  vulnerability_score : Option ℚ
  deriving DecidableEq

/-- Already-scored product record consumed by the aggregator. -/
structure ProductRecord where
  criticality_score : Option ℚ
  deriving DecidableEq

/-- `np.mean` of a nonempty list of rationals. -/
def npMean (l : List ℚ) : ℚ := l.sum / l.length

/-- `[s.get('overall_risk_score', 50) for s in suppliers]`. -/
def supplier_risks (suppliers : List SupplierRecord) : List ℚ :=
  suppliers.map (fun s => s.overall_risk_score.getD 50)

/-- `[r.get('vulnerability_score', 50) for r in routes]`. -/
def route_risks (routes : List RouteRecord) : List ℚ :=
  routes.map (fun r => r.vulnerability_score.getD 50)

/-- `[p.get('criticality_score', 0.5) * 100 for p in products]`. -/
def product_risks (products : List ProductRecord) : List ℚ :=
  products.map (fun p => p.criticality_score.getD (1/2) * 100)

/-- `np.mean(supplier_risks) if supplier_risks else 50`. -/
def avg_supplier_risk (suppliers : List SupplierRecord) : ℚ :=
  if supplier_risks suppliers = [] then 50 else npMean (supplier_risks suppliers)

/-- `np.mean(route_risks) if route_risks else 50`. -/
def avg_route_risk (routes : List RouteRecord) : ℚ :=
  if route_risks routes = [] then 50 else npMean (route_risks routes)

/-- `np.mean(product_risks) if product_risks else 50`. -/
def avg_product_risk (products : List ProductRecord) : ℚ :=
  if product_risks products = [] then 50 else npMean (product_risks products)

/-- `supplier_concentration = len(suppliers) / 1000`. -/
def supplier_concentration (suppliers : List SupplierRecord) : ℚ :=
  (suppliers.length : ℚ) / 1000

/-- `concentration_risk = max(0, (1 - supplier_concentration) * 100)`. -/
def concentration_risk (suppliers : List SupplierRecord) : ℚ :=
  max 0 ((1 - supplier_concentration suppliers) * 100)

/-- `supplier_countries = set(s.get('country_id') for s in suppliers)`:
the distinct `country_id` values (an absent key contributes `none`). -/
def supplier_countries (suppliers : List SupplierRecord) : List (Option ℤ) :=
  (suppliers.map (fun s => s.country_id)).dedup

/-- `geographic_concentration = max(0, (1 - len(supplier_countries) / 20) * 100)`. -/
def geographic_concentration (suppliers : List SupplierRecord) : ℚ :=
  max 0 ((1 - ((supplier_countries suppliers).length : ℚ) / 20) * 100)

/-- The `overall_risk` weighted blend of
`calculate_company_supply_chain_risk`. -/
def supply_chain_overall_risk (suppliers : List SupplierRecord)
    (routes : List RouteRecord) (products : List ProductRecord) : ℚ :=
  avg_supplier_risk suppliers * (3/10) +
  avg_route_risk routes * (25/100) +
  avg_product_risk products * (2/10) +
  concentration_risk suppliers * (15/100) +
  geographic_concentration suppliers * (1/10)

/-- The dictionary returned by `calculate_company_supply_chain_risk`. -/
structure SupplyChainAssessment where
  supplier_risk : ℚ
  route_risk : ℚ
  product_risk : ℚ
  concentration_risk : ℚ
  geographic_concentration : ℚ
  overall_supply_chain_risk : ℚ
  deriving DecidableEq

/-- `IScoreEngine.calculate_company_supply_chain_risk` (the
`company_data` argument is unused by the computation and omitted). -/
def calculate_company_supply_chain_risk (suppliers : List SupplierRecord)
    (routes : List RouteRecord) (products : List ProductRecord) :
    SupplyChainAssessment :=
  { supplier_risk := avg_supplier_risk suppliers
    route_risk := avg_route_risk routes
    product_risk := avg_product_risk products
    concentration_risk := concentration_risk suppliers
    geographic_concentration := geographic_concentration suppliers
    overall_supply_chain_risk :=
      min 100 (max 0 (supply_chain_overall_risk suppliers routes products)) }

/-- Mutable engine state touched by the predictive extension:
`self.models` (fitted regressors, modelled as functions from a feature
vector to a prediction), `self.feature_importance`, `self.weights`. -/
structure EngineState where
  models : List (String × (List ℚ → ℚ))
  feature_importance : List (String × ℚ)
  weights : List (String × ℚ)

/-- Python `d.get(k, default)` on an association list. -/
def dictGet (d : List (String × ℚ)) (k : String) (default : ℚ) : ℚ :=
  ((d.find? (fun p => p.1 = k)).map (fun p => p.2)).getD default

/-- The feature vector built by `predict_risk_score`: one entry per
trained feature name, `features.get(feature, 0)`. -/
def feature_vector (e : EngineState) (features : List (String × ℚ)) : List ℚ :=
  e.feature_importance.map (fun p => dictGet features p.1 0)

/-- `IScoreEngine.predict_risk_score`: neutral 50.0 when `self.models`
is empty, otherwise the ensemble mean of the model predictions. -/
def predict_risk_score (e : EngineState) (features : List (String × ℚ)) : ℚ :=
  if e.models.isEmpty then 50
  else npMean (e.models.map (fun m => m.2 (feature_vector e features)))

/-- A deserialized `model_data` dictionary: each expected key may be
absent (accessing an absent key raises `KeyError` in the source). -/
structure ModelArtifact where
  models : Option (List (String × (List ℚ → ℚ)))
  feature_importance : Option (List (String × ℚ))
  weights : Option (List (String × ℚ))

/-- `IScoreEngine.load_models`, with the artifact already deserialized
(`none` = `joblib.load` itself raised). The body mirrors the statement
order inside the `try` block: `self.models` is assigned from
`model_data['models']` before `model_data['feature_importance']` is
read, and the `except` clause keeps whatever was committed so far. -/
def load_models (e : EngineState) (artifact : Option ModelArtifact) :
    EngineState :=
  match artifact with
  | none => e
  | some d =>
    match d.models with
    | none => e
    | some ms =>
      match d.feature_importance with
      | none => { e with models := ms }
      | some fi =>
        { models := ms, feature_importance := fi,
          weights := d.weights.getD e.weights }

/-! ### Concrete bundles used by counterexamples and witnesses -/

/-- The end-to-end example supplier of spec §8: financial_health=85,
cyber=30, operational=40, tier=2, revenue=50,000,000. -/
def example_supplier : SupplierData :=
  ⟨some 85, some 30, some 40, some 2, some 50000000⟩

/-- A route bundle with no `route_type` key and a 50 chokepoint risk. -/
def route_without_type : RouteData :=
  ⟨some 0, some 0, some 0, none, some 50⟩

/-- A route bundle with the unknown route type `'rail'`. -/
def route_rail : RouteData :=
  ⟨some 0, some 0, some 0, some "rail", some 50⟩

/-- An untrained engine: no models, no feature importances. -/
def untrained_engine : EngineState := ⟨[], [], []⟩

/-! ### C1 -/

/-- C1 counterexample: at the spec's own end-to-end input (supplier
financial_health=85, cyber=30, operational=40, tier=2 with
country_risk=25) the code returns overall_risk = 11.6, not the 24.1
demanded by the claim's formula: the code blends the already-weighted
components (`financial_risk*0.3` where `financial_risk=(1-fh)*0.4`),
not the raw fractions. -/
theorem supplier_overall_differs_from_claim :
    (calculate_supplier_risk_score example_supplier 25).overall_risk = 58/5 ∧
    supplier_overall_risk_specified example_supplier 25 = 241/10 ∧
    (58/5 : ℚ) ≠ 241/10 := by
  refine ⟨?_, ?_, by norm_num⟩ <;>
  norm_num [calculate_supplier_risk_score, supplier_overall_risk_specified,
    supplier_overall_risk, financial_risk, financial_health,
    cyber_risk_component, cyber_risk, operational_risk_component,
    operational_risk, tier_risk, example_supplier, min_def, max_def]

/-- C1 (amended): for every supplier bundle and country risk, the
returned overall_risk equals the clamp of
`((1-fh/100)*0.12 + (cyber/100)*0.06 + (op/100)*0.06 + (cr/100)*0.2 +
tier_risk*0.1)*100` — the effective coefficients after the component
weights 0.4/0.3/0.3 are multiplied by the blend weights 0.3/0.2/0.2 —
and at the spec's end-to-end input the breakdown is
(financial 6, cyber 9, operational 12, country 25, tier 6, overall 11.6). -/
theorem supplier_overall_risk_formula :
    (∀ (s : SupplierData) (cr : ℚ),
      (calculate_supplier_risk_score s cr).overall_risk =
        min 100 (max 0
          (((1 - financial_health s) * (12/100) +
            cyber_risk s * (6/100) +
            operational_risk s * (6/100) +
            (cr / 100) * (2/10) +
            tier_risk s * (1/10)) * 100))) ∧
    calculate_supplier_risk_score example_supplier 25 =
      ⟨6, 9, 12, 25, 6, 58/5⟩ := by
  constructor
  · intro s cr
    have h : supplier_overall_risk s cr =
        ((1 - financial_health s) * (12/100) +
          cyber_risk s * (6/100) +
          operational_risk s * (6/100) +
          (cr / 100) * (2/10) +
          tier_risk s * (1/10)) * 100 := by
      unfold supplier_overall_risk financial_risk cyber_risk_component
        operational_risk_component
      ring
    simp only [calculate_supplier_risk_score, h]
  · norm_num [calculate_supplier_risk_score, SupplierBreakdown.mk.injEq,
      supplier_overall_risk, financial_risk, financial_health,
      cyber_risk_component, cyber_risk, operational_risk_component,
      operational_risk, tier_risk, example_supplier, min_def, max_def]

/-! ### C3 -/

/-- C3 counterexample: a bundle with an absent `route_type` key gets the
`'sea'` default and hence multiplier 1.2, not the neutral 1.0 the claim
asserts — its score is 15 while a 1.0 multiplier would give 12.5. -/
theorem route_absent_type_not_neutral :
    route_without_type.route_type = none ∧
    calculate_trade_route_risk_score route_without_type 0 0 = 15 ∧
    min 100 (max 0 (route_base_sum route_without_type 0 0 * 1 * 100)) = 25/2 ∧
    (15 : ℚ) ≠ 25/2 := by
  refine ⟨rfl, ?_, ?_, by norm_num⟩ <;>
  norm_num [calculate_trade_route_risk_score, route_base_sum,
    route_type_value, type_multiplier, route_without_type, min_def, max_def]

/-- C3 (amended): a route whose `route_type` key is *present* but not
one of sea/air/land receives the neutral multiplier 1.0, so its score is
the clamp of the unweighted base sum times 100; an absent key instead
defaults to `'sea'` (multiplier 1.2, see the counterexample). -/
theorem route_unknown_type_neutral (r : RouteData) (s : String)
    (h : r.route_type = some s)
    (h1 : s ≠ "sea") (h2 : s ≠ "air") (h3 : s ≠ "land")
    (origin_risk dest_risk : ℚ) :
    calculate_trade_route_risk_score r origin_risk dest_risk =
      min 100 (max 0 (route_base_sum r origin_risk dest_risk * 100)) := by
  unfold calculate_trade_route_risk_score route_type_value type_multiplier
  rw [h]
  simp [h1, h2, h3]

/-- C3 witness: the unknown route type `'rail'` at concrete inputs. -/
theorem route_unknown_type_neutral_witness :
    calculate_trade_route_risk_score route_rail 0 0 =
      min 100 (max 0 (route_base_sum route_rail 0 0 * 100)) :=
  route_unknown_type_neutral route_rail "rail" rfl
    (by decide) (by decide) (by decide) 0 0

/-! ### C6 -/

/-- C6: the aggregator on empty supplier/route/product lists returns
supplier_risk = route_risk = product_risk = 50, concentration_risk = 100
and geographic_concentration = 100 (the empty-list branches take the
default 50, so no mean of an empty list is ever formed). -/
theorem supply_chain_empty_defaults :
    (calculate_company_supply_chain_risk [] [] []).supplier_risk = 50 ∧
    (calculate_company_supply_chain_risk [] [] []).route_risk = 50 ∧
    (calculate_company_supply_chain_risk [] [] []).product_risk = 50 ∧
    (calculate_company_supply_chain_risk [] [] []).concentration_risk = 100 ∧
    (calculate_company_supply_chain_risk [] [] []).geographic_concentration = 100 := by
  refine ⟨?_, ?_, ?_, ?_, ?_⟩ <;>
  norm_num [calculate_company_supply_chain_risk, avg_supplier_risk,
    avg_route_risk, avg_product_risk, supplier_risks, route_risks,
    product_risks, concentration_risk, supplier_concentration,
    geographic_concentration, supplier_countries, min_def, max_def]

/-! ### C8 -/

/-- C8: on an engine whose trained-model mapping is empty,
`predict_risk_score` returns exactly 50 for every feature mapping. -/
theorem predict_risk_score_untrained (e : EngineState)
    (features : List (String × ℚ)) (h : e.models = []) :
    predict_risk_score e features = 50 := by
  simp [predict_risk_score, h]

/-- C8 witness: the untrained engine and the empty feature mapping. -/
theorem predict_risk_score_untrained_witness :
    predict_risk_score untrained_engine [] = 50 :=
  predict_risk_score_untrained untrained_engine [] rfl

/-! ### C10 -/

/-- C10: two supplier bundles that differ only in `annual_revenue`
produce identical breakdowns for every country risk — the revenue is
extracted and log-normalized by the source but never used in any
returned score. -/
theorem supplier_score_ignores_revenue (s : SupplierData)
    (r₁ r₂ : Option ℚ) (cr : ℚ) :
    calculate_supplier_risk_score { s with annual_revenue := r₁ } cr =
      calculate_supplier_risk_score { s with annual_revenue := r₂ } cr := rfl

/-! ### Helper lemmas for the country scorer -/

theorem sigmoid_pos (t : ℝ) : 0 < sigmoidCompress t := by
  unfold sigmoidCompress
  positivity

theorem sigmoid_lt_hundred (t : ℝ) : sigmoidCompress t < 100 := by
  unfold sigmoidCompress
  have h := Real.exp_pos (-((t - 50) / 10))
  exact div_lt_self (by norm_num) (by linarith)

theorem sigmoid_strictMono {t₁ t₂ : ℝ} (h : t₁ < t₂) :
    sigmoidCompress t₁ < sigmoidCompress t₂ := by
  unfold sigmoidCompress
  have he : Real.exp (-((t₂ - 50) / 10)) < Real.exp (-((t₁ - 50) / 10)) :=
    Real.exp_lt_exp.mpr (by linarith)
  have h2 : 0 < 1 + Real.exp (-((t₂ - 50) / 10)) := by positivity
  exact div_lt_div_of_pos_left (by norm_num) h2 (by linarith)

/-- The final `min(100, max(0, ·))` of the country scorer never binds:
the sigmoid already lies strictly inside (0, 100). -/
theorem country_score_eq_sigmoid (c : CountryData) :
    calculate_country_risk_score c = sigmoidCompress (total_risk c) := by
  unfold calculate_country_risk_score
  rw [max_eq_right (sigmoid_pos _).le, min_eq_right (sigmoid_lt_hundred _).le]

theorem total_risk_lt_total_risk {c₁ c₂ : CountryData}
    (h : political_risk c₁ + economic_risk c₁ + corruption_risk c₁ <
         political_risk c₂ + economic_risk c₂ + corruption_risk c₂)
    (hdev : development_risk c₁ = development_risk c₂) :
    total_risk c₁ < total_risk c₂ := by
  unfold total_risk
  rw [hdev]
  have hr := (Rat.cast_lt (K := ℝ)).mpr h
  push_cast at hr
  linarith

/-! ### C2 -/

/-- A country bundle with zero population and a large GDP. -/
def zero_population_country : CountryData :=
  ⟨none, none, none, some 100000, some 0⟩

/-- A country bundle with zero population and a small GDP. -/
def zero_population_small_country : CountryData :=
  ⟨none, none, none, some 100, some 0⟩

/-- C2 counterexample: with population = 0 and gdp_usd = 100000, the
code divides by `max(0,1) = 1`, normalizes `log1p(100000)/log1p(100000)`
to exactly 1, and gets a development-risk term of 0 — not the claimed
neutral `(1 - 0.5) * economic_weight = 0.1`. -/
theorem development_risk_zero_population_not_neutral :
    zero_population_country.population = some 0 ∧
    development_risk zero_population_country = 0 ∧
    (1 - (1/2 : ℝ)) * (economic_weight : ℝ) ≠ 0 := by
  refine ⟨rfl, ?_, by norm_num [economic_weight]⟩
  have h1 : gdp_per_capita zero_population_country = 100000 := by
    norm_num [gdp_per_capita, zero_population_country, max_def]
  unfold development_risk gdp_per_capita_normalized
  rw [h1]
  unfold log1pNorm
  push_cast
  rw [div_self (ne_of_gt (Real.log_pos (by norm_num)))]
  ring

/-- C2 (amended): when population is 0 or absent, the code's
`max(population, 1)` turns the divisor into 1, so per-capita GDP is the
raw `gdp_usd` value (0 when absent) and the development term is
`(1 - log1p(gdp_usd)/log1p(100000)) * economic_weight` — the division by
zero is avoided, but no neutral 0.5 is substituted. -/
theorem development_risk_zero_population (c : CountryData)
    (h : c.population = none ∨ c.population = some 0) :
    gdp_per_capita c = c.gdp_usd.getD 0 ∧
    development_risk c =
      (1 - log1pNorm ((c.gdp_usd.getD 0 : ℚ) : ℝ) 100000) *
        (economic_weight : ℝ) := by
  have h1 : gdp_per_capita c = c.gdp_usd.getD 0 := by
    rcases h with h | h <;> norm_num [gdp_per_capita, h, max_def]
  refine ⟨h1, ?_⟩
  unfold development_risk gdp_per_capita_normalized
  rw [h1]

/-- C2 witness: population = 0 with gdp_usd = 100. -/
theorem development_risk_zero_population_witness :
    gdp_per_capita zero_population_small_country =
      zero_population_small_country.gdp_usd.getD 0 ∧
    development_risk zero_population_small_country =
      (1 - log1pNorm ((zero_population_small_country.gdp_usd.getD 0 : ℚ) : ℝ)
        100000) * (economic_weight : ℝ) :=
  development_risk_zero_population zero_population_small_country (Or.inr rfl)

/-! ### C5 -/

/-- A neutral country bundle for the monotonicity witness. -/
def example_country : CountryData :=
  ⟨some 50, some 50, some 50, some 0, some 1⟩

/-- C5: holding all other fields fixed, a strictly larger
political_stability_index strictly decreases
`calculate_country_risk_score`, and likewise for economic_freedom_index
and corruption_perception_index (the sigmoid is strictly increasing and
its output never touches the final clamp). -/
theorem country_risk_strict_mono (c : CountryData) (a b : ℚ) (h : a < b) :
    calculate_country_risk_score {c with political_stability_index := some b} <
      calculate_country_risk_score {c with political_stability_index := some a} ∧
    calculate_country_risk_score {c with economic_freedom_index := some b} <
      calculate_country_risk_score {c with economic_freedom_index := some a} ∧
    calculate_country_risk_score {c with corruption_perception_index := some b} <
      calculate_country_risk_score {c with corruption_perception_index := some a} := by
  refine ⟨?_, ?_, ?_⟩ <;>
  · rw [country_score_eq_sigmoid, country_score_eq_sigmoid]
    apply sigmoid_strictMono
    refine total_risk_lt_total_risk ?_ rfl
    simp only [political_risk, economic_risk, corruption_risk,
      political_stability, economic_freedom, corruption_index,
      geopolitical_weight, economic_weight, regulatory_weight,
      Option.getD_some]
    linarith

/-- C5 witness: raising each index from 40 to 60 on a concrete bundle. -/
theorem country_risk_strict_mono_witness :
    calculate_country_risk_score
        {example_country with political_stability_index := some 60} <
      calculate_country_risk_score
        {example_country with political_stability_index := some 40} ∧
    calculate_country_risk_score
        {example_country with economic_freedom_index := some 60} <
      calculate_country_risk_score
        {example_country with economic_freedom_index := some 40} ∧
    calculate_country_risk_score
        {example_country with corruption_perception_index := some 60} <
      calculate_country_risk_score
        {example_country with corruption_perception_index := some 40} :=
  country_risk_strict_mono example_country 40 60 (by norm_num)

/-! ### C4 -/

theorem route_base_sum_set_type (r : RouteData) (t : Option String)
    (o d : ℚ) : route_base_sum {r with route_type := t} o d =
      route_base_sum r o d := rfl

theorem type_multiplier_sea : type_multiplier "sea" = 12/10 := rfl

theorem type_multiplier_air : type_multiplier "air" = 8/10 := by
  unfold type_multiplier
  rw [if_neg (by decide), if_pos rfl]

theorem type_multiplier_land : type_multiplier "land" = 1 := by
  unfold type_multiplier
  rw [if_neg (by decide), if_neg (by decide), if_pos rfl]

/-- An all-zero route bundle typed `'sea'`. -/
def zero_route_sea : RouteData := ⟨some 0, some 0, some 0, some "sea", some 0⟩

/-- An all-zero route bundle typed `'land'`. -/
def zero_route_land : RouteData := ⟨some 0, some 0, some 0, some "land", some 0⟩

/-- A route whose only risk contributions are a 60 chokepoint risk and
endpoint risks, giving a base sum of 0.3. -/
def chokepoint_route : RouteData := ⟨some 0, some 0, some 0, none, some 60⟩

/-- C4 counterexample: with every metric 0 the weighted base sum is 0,
so sea and land routes both score 0 and the claimed *strict* ordering
fails. -/
theorem route_ordering_not_strict_at_zero :
    ¬ (calculate_trade_route_risk_score zero_route_sea 0 0 >
       calculate_trade_route_risk_score zero_route_land 0 0) := by
  norm_num [calculate_trade_route_risk_score, route_base_sum,
    route_type_value, type_multiplier, zero_route_sea, zero_route_land,
    min_def, max_def]

/-- C4 (amended): the strict ordering vulnerability(sea) >
vulnerability(land) > vulnerability(air) holds whenever the weighted
base sum lies strictly between 0 and 1 (equality occurs when the base
sum is 0, or once the clamps saturate). -/
theorem route_type_strict_ordering (r : RouteData) (o d : ℚ)
    (h0 : 0 < route_base_sum r o d) (h1 : route_base_sum r o d < 1) :
    calculate_trade_route_risk_score {r with route_type := some "sea"} o d >
      calculate_trade_route_risk_score {r with route_type := some "land"} o d ∧
    calculate_trade_route_risk_score {r with route_type := some "land"} o d >
      calculate_trade_route_risk_score {r with route_type := some "air"} o d := by
  have hsea : calculate_trade_route_risk_score
      {r with route_type := some "sea"} o d =
      min 100 (route_base_sum r o d * (12/10) * 100) := by
    unfold calculate_trade_route_risk_score
    rw [route_base_sum_set_type]
    rw [show route_type_value {r with route_type := some "sea"} = "sea" from rfl]
    rw [type_multiplier_sea, max_eq_right (by nlinarith)]
  have hland : calculate_trade_route_risk_score
      {r with route_type := some "land"} o d = route_base_sum r o d * 100 := by
    unfold calculate_trade_route_risk_score
    rw [route_base_sum_set_type]
    rw [show route_type_value {r with route_type := some "land"} = "land" from rfl]
    rw [type_multiplier_land, max_eq_right (by nlinarith),
      min_eq_right (by nlinarith)]
    ring
  have hair : calculate_trade_route_risk_score
      {r with route_type := some "air"} o d =
      route_base_sum r o d * (8/10) * 100 := by
    unfold calculate_trade_route_risk_score
    rw [route_base_sum_set_type]
    rw [show route_type_value {r with route_type := some "air"} = "air" from rfl]
    rw [type_multiplier_air, max_eq_right (by nlinarith),
      min_eq_right (by nlinarith)]
  constructor
  · rw [hsea, hland]
    rcases le_total (route_base_sum r o d * (12/10) * 100) 100 with hc | hc
    · rw [min_eq_right hc]; nlinarith
    · rw [min_eq_left hc]; nlinarith
  · rw [hland, hair]; nlinarith

/-- C4 witness: the chokepoint route between two risk-50 countries has
base sum 0.3, and its three type variants score 36 > 30 > 24. -/
theorem route_type_strict_ordering_witness :
    calculate_trade_route_risk_score
        {chokepoint_route with route_type := some "sea"} 50 50 >
      calculate_trade_route_risk_score
        {chokepoint_route with route_type := some "land"} 50 50 ∧
    calculate_trade_route_risk_score
        {chokepoint_route with route_type := some "land"} 50 50 >
      calculate_trade_route_risk_score
        {chokepoint_route with route_type := some "air"} 50 50 :=
  route_type_strict_ordering chokepoint_route 50 50
    (by norm_num [route_base_sum, chokepoint_route, min_def, max_def])
    (by norm_num [route_base_sum, chokepoint_route, min_def, max_def])

/-! ### C9 -/

/-- An engine that already holds a trained model, an importance mapping
and weights. -/
def trained_engine : EngineState :=
  ⟨[("old_model", fun _ => 0)], [("political_stability", 1)],
    [("geopolitical", 25/100)]⟩

/-- A deserialized artifact that carries a `'models'` entry but lacks
`'feature_importance'` — reading the latter raises `KeyError`. -/
def artifact_missing_importance : ModelArtifact :=
  ⟨some [("random_forest", fun _ => 0)], none, none⟩

/-- C9: a failed `load_models` is *not* atomic. On an artifact that
deserializes but lacks the `'feature_importance'` entry, `self.models`
has already been replaced when the `KeyError` is raised, while
`feature_importance` and `weights` keep their prior values — partially
replaced state, contradicting the claim. -/
theorem load_models_partial_mutation :
    artifact_missing_importance.feature_importance = none ∧
    (load_models trained_engine (some artifact_missing_importance)).models.map
        Prod.fst = ["random_forest"] ∧
    trained_engine.models.map Prod.fst = ["old_model"] ∧
    (["random_forest"] : List String) ≠ ["old_model"] ∧
    (load_models trained_engine (some artifact_missing_importance)).feature_importance =
      trained_engine.feature_importance ∧
    (load_models trained_engine (some artifact_missing_importance)).weights =
      trained_engine.weights :=
  ⟨rfl, rfl, rfl, by decide, rfl, rfl⟩

/-! ### C7 -/

/-- The documented attribute ranges for a supplier bundle: 0–100 indices
and tier 1–6 (on the values after default substitution). -/
def SupplierDataInRange (s : SupplierData) : Prop :=
  0 ≤ s.financial_health_score.getD 50 ∧ s.financial_health_score.getD 50 ≤ 100 ∧
  0 ≤ s.cyber_risk_score.getD 50 ∧ s.cyber_risk_score.getD 50 ≤ 100 ∧
  0 ≤ s.operational_risk_score.getD 50 ∧ s.operational_risk_score.getD 50 ≤ 100 ∧
  1 ≤ s.tier.getD 1 ∧ s.tier.getD 1 ≤ 6

theorem npMean_bounds {l : List ℚ} {lo hi : ℚ} (hne : l ≠ [])
    (h : ∀ x ∈ l, lo ≤ x ∧ x ≤ hi) : lo ≤ npMean l ∧ npMean l ≤ hi := by
  have hlen : 0 < (l.length : ℚ) := by
    exact_mod_cast List.length_pos.mpr hne
  have h1 : l.length • lo ≤ l.sum :=
    List.card_nsmul_le_sum l lo (fun x hx => (h x hx).1)
  have h2 : l.sum ≤ l.length • hi :=
    List.sum_le_card_nsmul l hi (fun x hx => (h x hx).2)
  rw [nsmul_eq_mul] at h1
  rw [nsmul_eq_mul] at h2
  constructor
  · rw [npMean, le_div_iff₀ hlen]
    linarith
  · rw [npMean, div_le_iff₀ hlen]
    linarith

theorem avg_supplier_risk_bounds (sups : List SupplierRecord)
    (h : ∀ x ∈ sups, 0 ≤ x.overall_risk_score.getD 50 ∧
      x.overall_risk_score.getD 50 ≤ 100) :
    0 ≤ avg_supplier_risk sups ∧ avg_supplier_risk sups ≤ 100 := by
  unfold avg_supplier_risk
  split
  · norm_num
  · refine npMean_bounds (by assumption) ?_
    intro x hx
    obtain ⟨r, hr, rfl⟩ := List.mem_map.mp hx
    exact h r hr

theorem avg_route_risk_bounds (rts : List RouteRecord)
    (h : ∀ x ∈ rts, 0 ≤ x.vulnerability_score.getD 50 ∧
      x.vulnerability_score.getD 50 ≤ 100) :
    0 ≤ avg_route_risk rts ∧ avg_route_risk rts ≤ 100 := by
  unfold avg_route_risk
  split
  · norm_num
  · refine npMean_bounds (by assumption) ?_
    intro x hx
    obtain ⟨r, hr, rfl⟩ := List.mem_map.mp hx
    exact h r hr

theorem avg_product_risk_bounds (prods : List ProductRecord)
    (h : ∀ x ∈ prods, 0 ≤ x.criticality_score.getD (1/2) ∧
      x.criticality_score.getD (1/2) ≤ 1) :
    0 ≤ avg_product_risk prods ∧ avg_product_risk prods ≤ 100 := by
  unfold avg_product_risk
  split
  · norm_num
  · refine npMean_bounds (by assumption) ?_
    intro x hx
    obtain ⟨r, hr, rfl⟩ := List.mem_map.mp hx
    obtain ⟨h1, h2⟩ := h r hr
    constructor <;> nlinarith

theorem concentration_risk_bounds (sups : List SupplierRecord) :
    0 ≤ concentration_risk sups ∧ concentration_risk sups ≤ 100 := by
  have hl : (0:ℚ) ≤ (sups.length : ℚ) := Nat.cast_nonneg _
  unfold concentration_risk supplier_concentration
  refine ⟨le_max_left _ _, max_le (by norm_num) (by nlinarith)⟩

theorem geographic_concentration_bounds (sups : List SupplierRecord) :
    0 ≤ geographic_concentration sups ∧
      geographic_concentration sups ≤ 100 := by
  have hl : (0:ℚ) ≤ ((supplier_countries sups).length : ℚ) := Nat.cast_nonneg _
  unfold geographic_concentration
  refine ⟨le_max_left _ _, max_le (by norm_num) (by nlinarith)⟩

/-- C7: within the documented attribute ranges every returned value lies
in [0, 100] — the country scalar (clamped), all six supplier breakdown
entries (the unclamped sub-scores actually stay within 0–40, 0–30, 0–30
and 0–30), and all six supply-chain assessment entries (unclamped means
of in-range scores and the two penalty terms). -/
theorem all_scores_within_range (c : CountryData) (s : SupplierData)
    (cr : ℚ) (hs : SupplierDataInRange s) (hcr0 : 0 ≤ cr) (hcr1 : cr ≤ 100)
    (sups : List SupplierRecord) (rts : List RouteRecord)
    (prods : List ProductRecord)
    (hsup : ∀ x ∈ sups, 0 ≤ x.overall_risk_score.getD 50 ∧
      x.overall_risk_score.getD 50 ≤ 100)
    (hrt : ∀ x ∈ rts, 0 ≤ x.vulnerability_score.getD 50 ∧
      x.vulnerability_score.getD 50 ≤ 100)
    (hpr : ∀ x ∈ prods, 0 ≤ x.criticality_score.getD (1/2) ∧
      x.criticality_score.getD (1/2) ≤ 1) :
    (0 ≤ calculate_country_risk_score c ∧
      calculate_country_risk_score c ≤ 100) ∧
    (0 ≤ (calculate_supplier_risk_score s cr).financial_risk ∧
      (calculate_supplier_risk_score s cr).financial_risk ≤ 100) ∧
    (0 ≤ (calculate_supplier_risk_score s cr).cyber_risk ∧
      (calculate_supplier_risk_score s cr).cyber_risk ≤ 100) ∧
    (0 ≤ (calculate_supplier_risk_score s cr).operational_risk ∧
      (calculate_supplier_risk_score s cr).operational_risk ≤ 100) ∧
    (0 ≤ (calculate_supplier_risk_score s cr).country_risk ∧
      (calculate_supplier_risk_score s cr).country_risk ≤ 100) ∧
    (0 ≤ (calculate_supplier_risk_score s cr).tier_risk ∧
      (calculate_supplier_risk_score s cr).tier_risk ≤ 100) ∧
    (0 ≤ (calculate_supplier_risk_score s cr).overall_risk ∧
      (calculate_supplier_risk_score s cr).overall_risk ≤ 100) ∧
    (0 ≤ (calculate_company_supply_chain_risk sups rts prods).supplier_risk ∧
      (calculate_company_supply_chain_risk sups rts prods).supplier_risk ≤ 100) ∧
    (0 ≤ (calculate_company_supply_chain_risk sups rts prods).route_risk ∧
      (calculate_company_supply_chain_risk sups rts prods).route_risk ≤ 100) ∧
    (0 ≤ (calculate_company_supply_chain_risk sups rts prods).product_risk ∧
      (calculate_company_supply_chain_risk sups rts prods).product_risk ≤ 100) ∧
    (0 ≤ (calculate_company_supply_chain_risk sups rts prods).concentration_risk ∧
      (calculate_company_supply_chain_risk sups rts prods).concentration_risk ≤ 100) ∧
    (0 ≤ (calculate_company_supply_chain_risk sups rts prods).geographic_concentration ∧
      (calculate_company_supply_chain_risk sups rts prods).geographic_concentration ≤ 100) ∧
    (0 ≤ (calculate_company_supply_chain_risk sups rts prods).overall_supply_chain_risk ∧
      (calculate_company_supply_chain_risk sups rts prods).overall_supply_chain_risk ≤ 100) := by
  obtain ⟨hf0, hf1, hc0, hc1, ho0, ho1, ht0, ht1⟩ := hs
  refine ⟨?_, ?_, ?_, ?_, ⟨hcr0, hcr1⟩, ?_, ?_, ?_, ?_, ?_, ?_, ?_, ?_⟩
  · exact ⟨le_min (by norm_num) (le_max_left _ _), min_le_left _ _⟩
  · show 0 ≤ financial_risk s * 100 ∧ financial_risk s * 100 ≤ 100
    unfold financial_risk financial_health
    constructor <;> nlinarith
  · show 0 ≤ cyber_risk_component s * 100 ∧ cyber_risk_component s * 100 ≤ 100
    unfold cyber_risk_component cyber_risk
    constructor <;> nlinarith
  · show 0 ≤ operational_risk_component s * 100 ∧
      operational_risk_component s * 100 ≤ 100
    unfold operational_risk_component operational_risk
    constructor <;> nlinarith
  · show 0 ≤ tier_risk s * 100 ∧ tier_risk s * 100 ≤ 100
    unfold tier_risk
    constructor <;> nlinarith
  · exact ⟨le_min (by norm_num) (le_max_left _ _), min_le_left _ _⟩
  · exact avg_supplier_risk_bounds sups hsup
  · exact avg_route_risk_bounds rts hrt
  · exact avg_product_risk_bounds prods hpr
  · exact concentration_risk_bounds sups
  · exact geographic_concentration_bounds sups
  · exact ⟨le_min (by norm_num) (le_max_left _ _), min_le_left _ _⟩

/-- C7 witness: concrete in-range inputs for all three scorers. -/
theorem all_scores_within_range_witness :
    (0 ≤ calculate_country_risk_score example_country ∧
      calculate_country_risk_score example_country ≤ 100) ∧
    (0 ≤ (calculate_supplier_risk_score example_supplier 25).financial_risk ∧
      (calculate_supplier_risk_score example_supplier 25).financial_risk ≤ 100) ∧
    (0 ≤ (calculate_supplier_risk_score example_supplier 25).cyber_risk ∧
      (calculate_supplier_risk_score example_supplier 25).cyber_risk ≤ 100) ∧
    (0 ≤ (calculate_supplier_risk_score example_supplier 25).operational_risk ∧
      (calculate_supplier_risk_score example_supplier 25).operational_risk ≤ 100) ∧
    (0 ≤ (calculate_supplier_risk_score example_supplier 25).country_risk ∧
      (calculate_supplier_risk_score example_supplier 25).country_risk ≤ 100) ∧
    (0 ≤ (calculate_supplier_risk_score example_supplier 25).tier_risk ∧
      (calculate_supplier_risk_score example_supplier 25).tier_risk ≤ 100) ∧
    (0 ≤ (calculate_supplier_risk_score example_supplier 25).overall_risk ∧
      (calculate_supplier_risk_score example_supplier 25).overall_risk ≤ 100) ∧
    (0 ≤ (calculate_company_supply_chain_risk [⟨some 70, some 1⟩] [⟨some 60⟩]
        [⟨some (1/2)⟩]).supplier_risk ∧
      (calculate_company_supply_chain_risk [⟨some 70, some 1⟩] [⟨some 60⟩]
        [⟨some (1/2)⟩]).supplier_risk ≤ 100) ∧
    (0 ≤ (calculate_company_supply_chain_risk [⟨some 70, some 1⟩] [⟨some 60⟩]
        [⟨some (1/2)⟩]).route_risk ∧
      (calculate_company_supply_chain_risk [⟨some 70, some 1⟩] [⟨some 60⟩]
        [⟨some (1/2)⟩]).route_risk ≤ 100) ∧
    (0 ≤ (calculate_company_supply_chain_risk [⟨some 70, some 1⟩] [⟨some 60⟩]
        [⟨some (1/2)⟩]).product_risk ∧
      (calculate_company_supply_chain_risk [⟨some 70, some 1⟩] [⟨some 60⟩]
        [⟨some (1/2)⟩]).product_risk ≤ 100) ∧
    (0 ≤ (calculate_company_supply_chain_risk [⟨some 70, some 1⟩] [⟨some 60⟩]
        [⟨some (1/2)⟩]).concentration_risk ∧
      (calculate_company_supply_chain_risk [⟨some 70, some 1⟩] [⟨some 60⟩]
        [⟨some (1/2)⟩]).concentration_risk ≤ 100) ∧
    (0 ≤ (calculate_company_supply_chain_risk [⟨some 70, some 1⟩] [⟨some 60⟩]
        [⟨some (1/2)⟩]).geographic_concentration ∧
      (calculate_company_supply_chain_risk [⟨some 70, some 1⟩] [⟨some 60⟩]
        [⟨some (1/2)⟩]).geographic_concentration ≤ 100) ∧
    (0 ≤ (calculate_company_supply_chain_risk [⟨some 70, some 1⟩] [⟨some 60⟩]
        [⟨some (1/2)⟩]).overall_supply_chain_risk ∧
      (calculate_company_supply_chain_risk [⟨some 70, some 1⟩] [⟨some 60⟩]
        [⟨some (1/2)⟩]).overall_supply_chain_risk ≤ 100) :=
  all_scores_within_range example_country example_supplier 25
    (by norm_num [SupplierDataInRange, example_supplier])
    (by norm_num) (by norm_num)
    [⟨some 70, some 1⟩] [⟨some 60⟩] [⟨some (1/2)⟩]
    (by intro x hx; simp only [List.mem_singleton] at hx; subst hx; norm_num)
    (by intro x hx; simp only [List.mem_singleton] at hx; subst hx; norm_num)
    (by intro x hx; simp only [List.mem_singleton] at hx; subst hx; norm_num)

end Sentinel
